import Mathlib

/-!
Verification development for the Notamify NOTAM retrieval server
(`notamify_server.py`).

The embedding below models, in order:

* the pagination aggregation loop of `NotamifyMCPClient.get_notams`
  (lines 138–176 of the source), including transport failures and the
  synthesis of the combined result dictionary;
* the ICAO location validation of `NotamQueryParams` (lines 49–65);
* the affected-element extraction, priority sorting and summary
  formatting of the `get_affected_elements` tool (lines 256–446).

JSON dictionaries are modelled as records whose optional keys are
`Option` fields, with an opaque `extra` component standing for all
fields the program never touches (they are copied through unchanged).
The page source is a function from page numbers to `Except` responses:
`Except.error` models a transport failure (`raise_for_status` or a
network error), `Except.ok` a decoded JSON body.  The unbounded
`while True:` loop is embedded with explicit fuel: `none` means the
loop did not finish within the given number of iterations, so
non-termination of the source loop is `∀ fuel, … = none`.  The loop
also returns the trace of requested page numbers (the successive
values of the `page` variable), which lets theorems speak about how
many requests were issued and that no page is ever re-requested.
-/

namespace Notamify

/-- A decoded JSON page response: the keys `get_notams` reads or
rewrites (`total_count`, `notams`, `page`, `per_page`), each optional
because a JSON object may lack them, plus an opaque `extra` component
for every other field, which the program copies through unchanged via
`data.copy()`. -/
structure RawResponse (α : Type) (ι : Type) where
  total_count : Option Int
  notams : Option (List ι)
  page : Option Int
  per_page : Option Int
  extra : α
deriving DecidableEq, Repr

variable {α ι : Type}

/-- `data.get("total_count", 0)` (line 156). -/
def reportedTotal (r : RawResponse α ι) : Int := r.total_count.getD 0

/-- `data.get("notams", [])` (line 159). -/
def pageNotams (r : RawResponse α ι) : List ι := r.notams.getD []

/-- A page source: what `self.client.get` followed by
`raise_for_status` / `json()` yields for each requested page number.
`Except.error` is a transport-level failure (non-2xx status or network
error), `Except.ok` a decoded body. -/
def Src (α ι : Type) : Type := Nat → Except String (RawResponse α ι)

/-- The loop state at the `break` (line 165): the accumulated
`all_notams`, the last response `data`, and the final value of the
`page` counter. -/
structure LoopOut (α ι : Type) where
  all_notams : List ι
  data : RawResponse α ι
  page : Nat
deriving DecidableEq, Repr

/-- The `break` condition of line 164:
`len(all_notams) >= total_count or not page_notams`, evaluated after
the current page's items have been appended. -/
def stopCond (acc : List ι) (d : RawResponse α ι) : Bool :=
  decide (reportedTotal d ≤ (acc.length : Int)) || (pageNotams d).isEmpty

/-- The `while True:` pagination loop of lines 143–167, with explicit
fuel (`none` = the loop did not finish within `fuel` iterations) and a
ghost trace of the page numbers requested so far.  Each iteration
requests the current page, propagates a transport error immediately,
otherwise appends the page's items and either breaks or moves to
`page + 1`. -/
def fetchLoop (src : Src α ι) :
    Nat → Nat → List ι → List Nat →
    Option (List Nat × Except String (LoopOut α ι))
  | 0, _, _, _ => none
  | fuel+1, page, acc, tr =>
    match src page with
    | .error e => some (tr ++ [page], .error e)
    | .ok data =>
      let acc2 := acc ++ pageNotams data
      if stopCond acc2 data then
        some (tr ++ [page], .ok ⟨acc2, data, page⟩)
      else
        fetchLoop src fuel (page + 1) acc2 (tr ++ [page])

/-- Lines 170–174: `result = data.copy()` followed by the four key
assignments (`notams`, `total_count`, `page`, `per_page`). -/
def buildResult (all_notams : List ι) (data : RawResponse α ι) :
    RawResponse α ι :=
  { data with
    notams := some all_notams
    total_count := some (reportedTotal data)
    page := some 1
    per_page := some (all_notams.length : Int) }

/-! ### Location validation (`NotamQueryParams`, lines 49–65) -/

/-- Python `str.isalpha()`: nonempty and every character alphabetic
(restricted here to the `Char.isAlpha` alphabet). -/
def pyIsAlpha (s : String) : Bool := !s.isEmpty && s.toList.all Char.isAlpha

/-- The per-entry test of line 63:
`not location or len(location) != 4 or not location.isalpha()`. -/
def badIcao (loc : String) : Bool :=
  loc.isEmpty || loc.length != 4 || !pyIsAlpha loc

/-- The `for location in v` scan of lines 62–64: the first entry that
fails the test, if any (the loop raises at the first offender). -/
def firstBadIcao : List String → Option String
  | [] => none
  | loc :: rest => if badIcao loc then some loc else firstBadIcao rest

/-- The message of line 64. -/
def icaoError (loc : String) : String :=
  "Invalid ICAO code: " ++ loc ++ ". Must be 4 letters."

/-- Construction of `NotamQueryParams.locations`: the pydantic
`min_length=1` / `max_length=5` bounds of line 52, then the
`validate_icao_codes` field validator (lines 59–65), which upper-cases
every entry on success. -/
def validateLocations (v : List String) : Except String (List String) :=
  if v.length < 1 then .error "locations: list should have at least 1 item"
  else if 5 < v.length then .error "locations: list should have at most 5 items"
  else
    match firstBadIcao v with
    | some loc => .error (icaoError loc)
    | none => .ok (v.map String.toUpper)

/-- `NotamifyMCPClient.get_notams` (lines 91–176): validate the query
first (line 111; a validation failure raises before any request is
issued), then run the pagination loop and synthesize the combined
result.  The outer `Except` is the validation error, the inner one a
transport error from some page. -/
def get_notams (locations : List String) (src : Src α ι) (fuel : Nat) :
    Except String (Option (List Nat × Except String (RawResponse α ι))) :=
  match validateLocations locations with
  | .error e => .error e
  | .ok _ =>
    .ok ((fetchLoop src fuel 1 [] []).map
      (fun r => (r.1, r.2.map (fun out => buildResult out.all_notams out.data))))

/-! ### Derived descriptions of a run, used to state the claims -/

/-- The items a given page contributes (empty for a failing page). -/
def pageItems (src : Src α ι) (p : Nat) : List ι :=
  match src p with
  | .ok d => pageNotams d
  | .error _ => []

/-- Concatenation of the items of pages `p, p+1, …, p+n-1` in fetch
order. -/
def chunkItems (src : Src α ι) (p n : Nat) : List ι :=
  (List.range' p n).flatMap (pageItems src)

/-- Concatenation of the items of pages `1, …, k` in fetch order. -/
def accThrough (src : Src α ι) (k : Nat) : List ι := chunkItems src 1 k

/-- Page `j` answers successfully and the loop, having accumulated the
items of pages `1..j`, does not stop there. -/
def okNoStop (src : Src α ι) (j : Nat) : Prop :=
  ∃ d, src j = .ok d ∧ stopCond (accThrough src j) d = false

/-- The aggregation loop, started as in the program (`page = 1`,
empty accumulator), finishes within some number of iterations. -/
def AggTerminates (src : Src α ι) : Prop :=
  ∃ fuel r, fetchLoop src fuel 1 [] [] = some r

/-! ### Basic lemmas about the loop -/

theorem pageItems_ok {src : Src α ι} {p : Nat} {d : RawResponse α ι}
    (h : src p = .ok d) : pageItems src p = pageNotams d := by
  simp [pageItems, h]

theorem chunkItems_zero (src : Src α ι) (p : Nat) : chunkItems src p 0 = [] := rfl

theorem chunkItems_succ_left (src : Src α ι) (p n : Nat) :
    chunkItems src p (n + 1) = pageItems src p ++ chunkItems src (p + 1) n := by
  simp [chunkItems, List.range'_succ]

theorem chunkItems_concat (src : Src α ι) (p n : Nat) :
    chunkItems src p (n + 1) = chunkItems src p n ++ pageItems src (p + n) := by
  simp [chunkItems, List.range'_concat]

theorem fetchLoop_error_step (src : Src α ι) (fuel p : Nat) (acc : List ι)
    (tr : List Nat) (e : String) (h : src p = .error e) :
    fetchLoop src (fuel + 1) p acc tr = some (tr ++ [p], .error e) := by
  simp [fetchLoop, h]

theorem fetchLoop_stop_step (src : Src α ι) (fuel p : Nat) (acc : List ι)
    (tr : List Nat) (d : RawResponse α ι) (hok : src p = .ok d)
    (hs : stopCond (acc ++ pageNotams d) d = true) :
    fetchLoop src (fuel + 1) p acc tr
      = some (tr ++ [p], .ok ⟨acc ++ pageNotams d, d, p⟩) := by
  simp [fetchLoop, hok, hs]

theorem fetchLoop_continue_step (src : Src α ι) (fuel p : Nat) (acc : List ι)
    (tr : List Nat) (d : RawResponse α ι) (hok : src p = .ok d)
    (hs : stopCond (acc ++ pageNotams d) d = false) :
    fetchLoop src (fuel + 1) p acc tr
      = fetchLoop src fuel (p + 1) (acc ++ pageNotams d) (tr ++ [p]) := by
  simp [fetchLoop, hok, hs]

theorem fetchLoop_skip (src : Src α ι) (n : Nat) :
    ∀ (p fuel : Nat) (acc : List ι) (tr : List Nat),
      (∀ j, j < n → ∃ d, src (p + j) = .ok d ∧
          stopCond (acc ++ chunkItems src p (j + 1)) d = false) →
      fetchLoop src (fuel + n) p acc tr
        = fetchLoop src fuel (p + n) (acc ++ chunkItems src p n)
            (tr ++ List.range' p n) := by
  induction n with
  | zero => intro p fuel acc tr _; simp [chunkItems]
  | succ n ih =>
    intro p fuel acc tr h
    obtain ⟨d, hok, hs⟩ := h 0 (Nat.succ_pos n)
    rw [Nat.add_zero] at hok
    rw [chunkItems_succ_left, pageItems_ok hok, chunkItems_zero,
      List.append_nil] at hs
    rw [show fuel + (n + 1) = (fuel + n) + 1 by omega,
      fetchLoop_continue_step src (fuel + n) p acc tr d hok hs]
    have hrest : ∀ j, j < n → ∃ d', src (p + 1 + j) = .ok d' ∧
        stopCond ((acc ++ pageNotams d) ++ chunkItems src (p + 1) (j + 1)) d'
          = false := by
      intro j hj
      obtain ⟨d', hok', hs'⟩ := h (j + 1) (by omega)
      refine ⟨d', by rw [show p + 1 + j = p + (j + 1) by omega]; exact hok', ?_⟩
      rw [chunkItems_succ_left, pageItems_ok hok, ← List.append_assoc] at hs'
      exact hs'
    rw [ih (p + 1) fuel (acc ++ pageNotams d) (tr ++ [p]) hrest]
    rw [chunkItems_succ_left src p n, pageItems_ok hok, List.append_assoc,
      List.range'_succ]
    simp [show p + 1 + n = p + (n + 1) by omega]

/-- Complete description of a run that stops normally: if pages
`1..k-1` each answer and fail the break test, and page `k` answers and
passes it, then (for any sufficient fuel) the loop requests exactly
pages `1..k` and breaks with the items of pages `1..k` accumulated and
page `k`'s response as the final `data`. -/
theorem fetchLoop_run_ok (src : Src α ι) (k m : Nat) (d : RawResponse α ι)
    (hk : 1 ≤ k)
    (hno : ∀ j, 1 ≤ j → j < k → okNoStop src j)
    (hok : src k = .ok d)
    (hs : stopCond (accThrough src k) d = true) :
    fetchLoop src (m + k) 1 [] []
      = some (List.range' 1 k, .ok ⟨accThrough src k, d, k⟩) := by
  obtain ⟨k', rfl⟩ : ∃ k', k = k' + 1 := ⟨k - 1, by omega⟩
  have hyp : ∀ j, j < k' → ∃ d', src (1 + j) = .ok d' ∧
      stopCond (([] : List ι) ++ chunkItems src 1 (j + 1)) d' = false := by
    intro j hj
    obtain ⟨d', hok', hs'⟩ := hno (j + 1) (by omega) (by omega)
    exact ⟨d', by rw [show (1 : Nat) + j = j + 1 by omega]; exact hok',
      by rw [List.nil_append]; exact hs'⟩
  rw [show m + (k' + 1) = (m + 1) + k' by omega,
    fetchLoop_skip src k' 1 (m + 1) [] [] hyp]
  rw [show (1 : Nat) + k' = k' + 1 by omega]
  have hacc : accThrough src (k' + 1)
      = chunkItems src 1 k' ++ pageNotams d := by
    rw [accThrough, chunkItems_concat, pageItems_ok (p := 1 + k')
      (by rw [show (1 : Nat) + k' = k' + 1 by omega]; exact hok)]
  have hs2 : stopCond ((([] : List ι) ++ chunkItems src 1 k')
      ++ pageNotams d) d = true := by
    rw [List.nil_append, ← hacc]; exact hs
  rw [fetchLoop_stop_step src m (k' + 1) _ _ d hok hs2]
  rw [List.nil_append, List.nil_append, ← hacc]
  have htr : List.range' 1 k' ++ [k' + 1] = List.range' 1 (k' + 1) := by
    rw [List.range'_concat]; simp [Nat.add_comm]
  rw [htr]

/-- Complete description of a run aborted by a transport failure: if
pages `1..k-1` each answer and fail the break test and page `k`'s
request fails, the loop requests exactly pages `1..k` and the failure
is returned as-is; no combined result exists. -/
theorem fetchLoop_run_error (src : Src α ι) (k m : Nat) (e : String)
    (hk : 1 ≤ k)
    (hno : ∀ j, 1 ≤ j → j < k → okNoStop src j)
    (herr : src k = .error e) :
    fetchLoop src (m + k) 1 [] []
      = some (List.range' 1 k, .error e) := by
  obtain ⟨k', rfl⟩ : ∃ k', k = k' + 1 := ⟨k - 1, by omega⟩
  have hyp : ∀ j, j < k' → ∃ d', src (1 + j) = .ok d' ∧
      stopCond (([] : List ι) ++ chunkItems src 1 (j + 1)) d' = false := by
    intro j hj
    obtain ⟨d', hok', hs'⟩ := hno (j + 1) (by omega) (by omega)
    exact ⟨d', by rw [show (1 : Nat) + j = j + 1 by omega]; exact hok',
      by rw [List.nil_append]; exact hs'⟩
  rw [show m + (k' + 1) = (m + 1) + k' by omega,
    fetchLoop_skip src k' 1 (m + 1) [] [] hyp]
  rw [show (1 : Nat) + k' = k' + 1 by omega]
  rw [fetchLoop_error_step src m (k' + 1) _ _ e herr]
  rw [List.nil_append]
  have htr : List.range' 1 k' ++ [k' + 1] = List.range' 1 (k' + 1) := by
    rw [List.range'_concat]; simp [Nat.add_comm]
  rw [htr]

/-- Any successful run has the shape of a prefix of pages followed by a
stopping page: the final `data` is the response of the last requested
page, the accumulator is the concatenation of all requested pages'
items, the trace is the contiguous page interval, and the break test
holds at the final state. -/
theorem fetchLoop_ok_shape (src : Src α ι) :
    ∀ (fuel p : Nat) (acc : List ι) (tr tr2 : List Nat) (out : LoopOut α ι),
      fetchLoop src fuel p acc tr = some (tr2, .ok out) →
      ∃ n d, out.page = p + n ∧ src (p + n) = .ok d ∧ out.data = d ∧
        stopCond out.all_notams d = true ∧
        out.all_notams = acc ++ chunkItems src p (n + 1) ∧
        tr2 = tr ++ List.range' p (n + 1) := by
  intro fuel
  induction fuel with
  | zero => intro p acc tr tr2 out h; simp [fetchLoop] at h
  | succ fuel ih =>
    intro p acc tr tr2 out h
    cases hsrc : src p with
    | error e => rw [fetchLoop_error_step src fuel p acc tr e hsrc] at h; simp at h
    | ok d =>
      cases hs : stopCond (acc ++ pageNotams d) d with
      | true =>
        rw [fetchLoop_stop_step src fuel p acc tr d hsrc hs] at h
        simp only [Option.some.injEq, Prod.mk.injEq, Except.ok.injEq] at h
        obtain ⟨htr, hout⟩ := h
        refine ⟨0, d, ?_, ?_, ?_, ?_, ?_, ?_⟩
        · rw [← hout]; rfl
        · rw [Nat.add_zero]; exact hsrc
        · rw [← hout]
        · rw [← hout]; exact hs
        · rw [← hout]
          simp [chunkItems_succ_left, chunkItems_zero, pageItems_ok hsrc]
        · rw [← htr]; simp [List.range'_succ]
      | false =>
        rw [fetchLoop_continue_step src fuel p acc tr d hsrc hs] at h
        obtain ⟨n, d', h1, h2, h3, h4, h5, h6⟩ :=
          ih (p + 1) (acc ++ pageNotams d) (tr ++ [p]) tr2 out h
        refine ⟨n + 1, d', by omega, ?_, h3, h4, ?_, ?_⟩
        · rw [show p + (n + 1) = p + 1 + n by omega]; exact h2
        · rw [h5, chunkItems_succ_left src p (n + 1), pageItems_ok hsrc,
            List.append_assoc]
        · rw [h6]; simp [List.range'_succ]

theorem stopCond_eq_false_iff (acc : List ι) (d : RawResponse α ι) :
    stopCond acc d = false ↔
      ((acc.length : Int) < reportedTotal d ∧ pageNotams d ≠ []) := by
  simp [stopCond, Int.not_le]

theorem stopCond_eq_true_iff (acc : List ι) (d : RawResponse α ι) :
    stopCond acc d = true ↔
      (reportedTotal d ≤ (acc.length : Int) ∨ pageNotams d = []) := by
  simp [stopCond, List.isEmpty_iff]

/-! ### Concrete page sources used to exercise the loop -/

/-- Default page size: `per_page: int = Field(default=30, ge=1, le=30)`
(line 56); the tool entry points never override it. -/
def defaultPerPage : Nat := 30

/-- First page of the well-behaved 45-item source: 30 items, reported
total 45. -/
def exPage1 : RawResponse Nat Nat :=
  ⟨some 45, some (List.range 30), some 1, some 30, 7⟩

/-- Second page of the well-behaved 45-item source: the remaining 15
items. -/
def exPage2 : RawResponse Nat Nat :=
  ⟨some 45, some (List.range' 30 15), some 2, some 30, 7⟩

/-- A well-behaved source with `total_count = 45` and full pages of 30:
page 1 returns 30 items, page 2 the remaining 15, later pages are
empty (never requested). -/
def exSrc45 : Src Nat Nat := fun p =>
  if p = 1 then .ok exPage1
  else if p = 2 then .ok exPage2
  else .ok ⟨some 45, some [], some (p : Int), some 30, 7⟩

/-- First page of the short-page source: only 10 of the reported 45
items, a non-empty page strictly shorter than the page size. -/
def shortPage1 : RawResponse Nat Nat :=
  ⟨some 45, some (List.range 10), some 1, some 30, 7⟩

/-- Second page of the short-page source: the remaining 35 items. -/
def shortPage2 : RawResponse Nat Nat :=
  ⟨some 45, some (List.range' 10 35), some 2, some 30, 7⟩

/-- A source whose first page is non-empty but shorter than
`defaultPerPage` while the reported total is still ahead. -/
def srcShort : Src Nat Nat := fun p =>
  if p = 1 then .ok shortPage1 else .ok shortPage2

/-- A source whose second page request fails at the transport level. -/
def errSrc : Src Nat Nat := fun p =>
  if p = 1 then .ok exPage1 else .error "HTTP 500"

/-- An adversarial source: every page returns one item and reports a
total one beyond everything accumulated so far, so the break test of
line 164 never fires. -/
def advSrc : Src Unit Nat := fun p =>
  .ok ⟨some ((p : Int) + 1), some [0], none, none, ()⟩

/-- `String.toUpper` unfolded to a map over the character list, so
that it can be evaluated on literals. -/
theorem toUpper_data (s : String) : s.toUpper = ⟨s.data.map Char.toUpper⟩ :=
  String.map_eq _ _

/-- The validator accepts the single already-uppercase code `KJFK`. -/
theorem validate_KJFK : validateLocations ["KJFK"] = .ok ["KJFK"] := by
  have h1 : firstBadIcao ["KJFK"] = none := by decide
  have h2 : "KJFK".toUpper = "KJFK" := by rw [toUpper_data]; decide
  simp [validateLocations, h1, h2]

/-- A source whose first page lacks the `total_count` key. -/
def noTotalSrc : Src Nat Nat := fun p =>
  if p = 1 then .ok ⟨none, some [5, 6, 7], none, none, 9⟩
  else .ok ⟨none, some [], none, none, 9⟩

theorem advSrc_loop_none :
    ∀ (fuel p : Nat) (acc : List Nat) (tr : List Nat),
      acc.length + 1 = p → fetchLoop advSrc fuel p acc tr = none := by
  intro fuel
  induction fuel with
  | zero => intro p acc tr _; rfl
  | succ fuel ih =>
    intro p acc tr hlen
    have hok : advSrc p = .ok ⟨some ((p : Int) + 1), some [0], none, none, ()⟩ := rfl
    have hs : stopCond (acc ++ pageNotams
        (⟨some ((p : Int) + 1), some [0], none, none, ()⟩ : RawResponse Unit Nat))
        ⟨some ((p : Int) + 1), some [0], none, none, ()⟩ = false := by
      rw [stopCond_eq_false_iff]
      refine ⟨?_, by simp [pageNotams]⟩
      simp [pageNotams, reportedTotal]
      omega
    rw [fetchLoop_continue_step advSrc fuel p acc tr _ hok hs]
    exact ih (p + 1) _ _ (by simp [pageNotams]; omega)

/-! ### Claim C1 -/

/-- C1, counterexample.  The claim asserts that a page returning a
non-zero number of items fewer than `per_page`, while the accumulated
count is still below the reported `total_count`, stops the loop
immediately (no further request) with fewer than `total_count` items.
On `srcShort`, page 1 returns 10 items (non-zero, below the default
page size 30) with 10 accumulated < 45 reported — exactly the claim's
premise — yet the loop requests page 2 as well (trace `[1, 2]`, not
`[1]`) and returns all 45 = `total_count` items, not fewer. -/
theorem C1_counterexample :
    (pageNotams shortPage1).length = 10
    ∧ 0 < (pageNotams shortPage1).length
    ∧ (pageNotams shortPage1).length < defaultPerPage
    ∧ ((accThrough srcShort 1).length : Int) < reportedTotal shortPage1
    ∧ fetchLoop srcShort 2 1 [] []
        = some ([1, 2], .ok ⟨List.range 45, shortPage2, 2⟩)
    ∧ ((List.range 45).length : Int) = reportedTotal shortPage2 := by
  exact ⟨rfl, by decide, by decide, by decide, rfl, by decide⟩

/-- C1, amended: a page that returns fewer items than `per_page` does
not by itself stop the loop.  As long as the page is non-empty and the
accumulated count (after appending the page) is still strictly below
the reported `total_count`, the loop issues a further request for the
next page; it stops only on the two conditions of line 164. -/
theorem C1_short_page_continues (src : Src α ι) (fuel p : Nat)
    (acc : List ι) (tr : List Nat) (d : RawResponse α ι)
    (hok : src p = .ok d) (hne : pageNotams d ≠ [])
    (hlt : (((acc ++ pageNotams d).length : Nat) : Int) < reportedTotal d) :
    fetchLoop src (fuel + 1) p acc tr
      = fetchLoop src fuel (p + 1) (acc ++ pageNotams d) (tr ++ [p]) :=
  fetchLoop_continue_step src fuel p acc tr d hok
    ((stopCond_eq_false_iff _ _).2 ⟨hlt, hne⟩)

/-- Witness for C1's amended theorem at the short-page source. -/
theorem C1_short_page_continues_witness :
    srcShort 1 = .ok shortPage1
    ∧ pageNotams shortPage1 ≠ []
    ∧ ((([] ++ pageNotams shortPage1).length : Nat) : Int)
        < reportedTotal shortPage1
    ∧ fetchLoop srcShort (1 + 1) 1 [] []
        = fetchLoop srcShort 1 (1 + 1) ([] ++ pageNotams shortPage1)
            ([] ++ [1]) :=
  ⟨rfl, by decide, by decide,
    C1_short_page_continues srcShort 1 1 [] [] shortPage1 rfl (by decide)
      (by decide)⟩

/-! ### Claim C2 -/

/-- C2: on the well-behaved source with `total_count = 45` and pages of
30 then 15 items, the loop performs exactly 2 page fetches and returns
all 45 items; and in general, whenever pages `1..k-1` each answer with
a non-empty item list leaving the accumulated count strictly below the
reported total (so that neither break condition holds) and page `k`
satisfies one of the two break conditions — accumulated count at least
the reported total, or an empty page — the loop stops exactly there,
having requested exactly pages `1..k`. -/
theorem C2_stop_rule :
    (fetchLoop exSrc45 2 1 [] []
        = some ([1, 2], .ok ⟨List.range 45, exPage2, 2⟩)
      ∧ [1, 2].length = 2 ∧ (List.range 45).length = 45)
    ∧ (∀ (β κ : Type) (src : Src β κ) (k m : Nat) (d : RawResponse β κ),
        1 ≤ k →
        (∀ j, 1 ≤ j → j < k →
          ∃ dj, src j = .ok dj
            ∧ ((accThrough src j).length : Int) < reportedTotal dj
            ∧ pageNotams dj ≠ []) →
        src k = .ok d →
        (reportedTotal d ≤ ((accThrough src k).length : Int)
          ∨ pageNotams d = []) →
        fetchLoop src (m + k) 1 [] []
          = some (List.range' 1 k, .ok ⟨accThrough src k, d, k⟩)) := by
  refine ⟨⟨rfl, rfl, rfl⟩, ?_⟩
  intro β κ src k m d hk hno hok hs
  apply fetchLoop_run_ok src k m d hk ?_ hok ((stopCond_eq_true_iff _ _).2 hs)
  intro j h1 h2
  obtain ⟨dj, h3, h4, h5⟩ := hno j h1 h2
  exact ⟨dj, h3, (stopCond_eq_false_iff _ _).2 ⟨h4, h5⟩⟩

/-- Witness for C2's general part, instantiated at the 45-item source
with `k = 2`. -/
theorem C2_stop_rule_witness :
    1 ≤ 2
    ∧ exSrc45 2 = .ok exPage2
    ∧ (reportedTotal exPage2 ≤ ((accThrough exSrc45 2).length : Int)
        ∨ pageNotams exPage2 = [])
    ∧ fetchLoop exSrc45 (0 + 2) 1 [] []
        = some (List.range' 1 2, .ok ⟨accThrough exSrc45 2, exPage2, 2⟩) := by
  refine ⟨by decide, rfl, by left; decide, ?_⟩
  exact C2_stop_rule.2 Nat Nat exSrc45 2 0 exPage2 (by decide)
    (fun j h1 h2 => by
      have hj : j = 1 := by omega
      subst hj
      exact ⟨exPage1, rfl, by decide, by decide⟩)
    rfl (by left; decide)

/-! ### Claim C4 -/

/-- C4, counterexample: the aggregation loop of lines 143–167 has no
iteration bound at all.  Against `advSrc` — a source that keeps
returning non-empty pages whose reported `total_count` always exceeds
the accumulated count — the loop never finishes, for any number of
iterations. -/
theorem C4_counterexample : ¬ AggTerminates advSrc := by
  rintro ⟨fuel, r, h⟩
  rw [advSrc_loop_none fuel 1 [] [] rfl] at h
  exact Option.noConfusion h

/-- C4, amended: the code bounds nothing.  The loop runs exactly until
one of the two break conditions of line 164 holds; against the
adversarial source it exhausts any iteration allowance `fuel` without
terminating. -/
theorem C4_no_iteration_bound (fuel : Nat) :
    fetchLoop advSrc fuel 1 [] [] = none :=
  advSrc_loop_none fuel 1 [] [] rfl

/-! ### Claim C3 -/

/-- C3: every successful aggregate is the last page's raw response with
exactly the four keys `notams`, `total_count`, `page`, `per_page`
rewritten — the item concatenation of all fetched pages in order, the
last reported total, the constant 1, and the collected item count — and
everything else (`extra`) passed through unchanged from the last
response. -/
theorem C3_aggregate_frame (locations : List String) (src : Src α ι)
    (fuel : Nat) (tr : List Nat) (agg : RawResponse α ι)
    (h : get_notams locations src fuel = .ok (some (tr, .ok agg))) :
    ∃ k d, 1 ≤ k ∧ tr = List.range' 1 k ∧ src k = .ok d ∧
      agg.notams = some (accThrough src k) ∧
      agg.total_count = some (reportedTotal d) ∧
      agg.page = some 1 ∧
      agg.per_page = some ((accThrough src k).length : Int) ∧
      agg.extra = d.extra := by
  cases hv : validateLocations locations with
  | error e => simp [get_notams, hv] at h
  | ok ls =>
    simp only [get_notams, hv] at h
    cases hl : fetchLoop src fuel 1 [] [] with
    | none => rw [hl] at h; simp at h
    | some r =>
      rw [hl] at h
      obtain ⟨tr', res⟩ := r
      cases res with
      | error e => simp [Except.map] at h
      | ok out =>
        simp only [Option.map_some', Except.map, Except.ok.injEq,
          Option.some.injEq, Prod.mk.injEq] at h
        obtain ⟨htr, hres⟩ := h
        subst htr
        obtain ⟨n, d, h1, h2, h3, h4, h5, h6⟩ :=
          fetchLoop_ok_shape src fuel 1 [] [] tr' out hl
        refine ⟨n + 1, d, by omega, ?_, ?_, ?_, ?_, ?_, ?_, ?_⟩
        · rw [h6]; simp [show (1 : Nat) + n = n + 1 by omega]
        · rw [show n + 1 = 1 + n by omega]; exact h2
        · rw [← hres, buildResult, h5]
          simp [accThrough, show (1 : Nat) + n = n + 1 by omega]
        · rw [← hres, buildResult, h3]
        · rw [← hres, buildResult]
        · rw [← hres, buildResult, h5]
          simp [accThrough, show (1 : Nat) + n = n + 1 by omega]
        · rw [← hres, buildResult, h3]

/-- Witness for C3 at the 45-item source. -/
theorem C3_aggregate_frame_witness :
    get_notams ["KJFK"] exSrc45 2
      = .ok (some ([1, 2], .ok (buildResult (List.range 45) exPage2)))
    ∧ ∃ k d, 1 ≤ k ∧ [1, 2] = List.range' 1 k ∧ exSrc45 k = .ok d ∧
        (buildResult (List.range 45) exPage2).notams
          = some (accThrough exSrc45 k) ∧
        (buildResult (List.range 45) exPage2).total_count
          = some (reportedTotal d) ∧
        (buildResult (List.range 45) exPage2).page = some 1 ∧
        (buildResult (List.range 45) exPage2).per_page
          = some ((accThrough exSrc45 k).length : Int) ∧
        (buildResult (List.range 45) exPage2).extra = d.extra := by
  have hg : get_notams ["KJFK"] exSrc45 2
      = .ok (some ([1, 2], .ok (buildResult (List.range 45) exPage2))) := by
    simp only [get_notams, validate_KJFK]
    rfl
  exact ⟨hg, C3_aggregate_frame ["KJFK"] exSrc45 2 [1, 2]
    (buildResult (List.range 45) exPage2) hg⟩

/-! ### Claim C7 -/

/-- C7: if, after a (possibly empty) prefix of pages that answer
without satisfying a break condition, some page request fails at the
transport level, the whole operation yields that transport error
verbatim: no aggregate is produced (the caller never sees a partially
filled `notams` list), and the trace of requested pages has no
duplicates — the failed page is not retried. -/
theorem C7_transport_abort (locations ls : List String) (src : Src α ι)
    (k m : Nat) (e : String)
    (hv : validateLocations locations = .ok ls)
    (hk : 1 ≤ k)
    (hno : ∀ j, 1 ≤ j → j < k →
      ∃ dj, src j = .ok dj
        ∧ ((accThrough src j).length : Int) < reportedTotal dj
        ∧ pageNotams dj ≠ [])
    (herr : src k = .error e) :
    get_notams locations src (m + k) = .ok (some (List.range' 1 k, .error e))
      ∧ (List.range' 1 k).Nodup := by
  have hno' : ∀ j, 1 ≤ j → j < k → okNoStop src j := by
    intro j h1 h2
    obtain ⟨dj, h3, h4, h5⟩ := hno j h1 h2
    exact ⟨dj, h3, (stopCond_eq_false_iff _ _).2 ⟨h4, h5⟩⟩
  have hrun := fetchLoop_run_error src k m e hk hno' herr
  refine ⟨?_, List.nodup_range' 1 k⟩
  simp [get_notams, hv, hrun, Except.map]

/-- Witness for C7: the second page of a two-page fetch fails with
`HTTP 500`. -/
theorem C7_transport_abort_witness :
    validateLocations ["KJFK"] = .ok ["KJFK"]
    ∧ 1 ≤ 2
    ∧ errSrc 2 = .error "HTTP 500"
    ∧ get_notams ["KJFK"] errSrc (0 + 2)
        = .ok (some (List.range' 1 2, .error "HTTP 500"))
    ∧ (List.range' 1 2).Nodup := by
  have h := C7_transport_abort ["KJFK"] ["KJFK"] errSrc 2 0 "HTTP 500"
    validate_KJFK (by decide)
    (fun j h1 h2 => by
      have hj : j = 1 := by omega
      subst hj
      exact ⟨exPage1, rfl, by decide, by decide⟩)
    rfl
  exact ⟨validate_KJFK, by decide, rfl, h.1, h.2⟩

/-! ### Claim C10 -/

/-- C10: when the first page's response lacks a `total_count` key,
`data.get("total_count", 0)` makes the loop treat the total as 0, so
the break test `len(all_notams) >= total_count` fires immediately: no
second page is requested whatever the page returned, and the combined
result reports `total_count = 0` while still carrying all of the
page's items, with `per_page` equal to their number. -/
theorem C10_missing_total (src : Src α ι) (d : RawResponse α ι) (fuel : Nat)
    (hok : src 1 = .ok d) (hmiss : d.total_count = none) :
    fetchLoop src (fuel + 1) 1 [] [] = some ([1], .ok ⟨pageNotams d, d, 1⟩)
      ∧ buildResult (pageNotams d) d
          = { d with notams := some (pageNotams d), total_count := some 0,
                     page := some 1,
                     per_page := some ((pageNotams d).length : Int) } := by
  constructor
  · have hs : stopCond (([] : List ι) ++ pageNotams d) d = true := by
      rw [stopCond_eq_true_iff]
      left
      simp [reportedTotal, hmiss]
    simpa using fetchLoop_stop_step src fuel 1 [] [] d hok hs
  · simp [buildResult, reportedTotal, hmiss]

/-- Witness for C10 at a source whose first page has three items and no
`total_count`. -/
theorem C10_missing_total_witness :
    noTotalSrc 1 = .ok ⟨none, some [5, 6, 7], none, none, 9⟩
    ∧ (RawResponse.total_count
        (⟨none, some [5, 6, 7], none, none, 9⟩ : RawResponse Nat Nat) = none)
    ∧ fetchLoop noTotalSrc (1 + 1) 1 [] []
        = some ([1], .ok ⟨pageNotams (⟨none, some [5, 6, 7], none, none, 9⟩
            : RawResponse Nat Nat), ⟨none, some [5, 6, 7], none, none, 9⟩, 1⟩) := by
  refine ⟨rfl, rfl, ?_⟩
  exact (C10_missing_total noTotalSrc ⟨none, some [5, 6, 7], none, none, 9⟩ 1
    rfl rfl).1

/-! ### Claim C5 -/

theorem firstBadIcao_eq_none (v : List String)
    (h : ∀ loc ∈ v, badIcao loc = false) : firstBadIcao v = none := by
  induction v with
  | nil => rfl
  | cons a rest ih =>
    have ha := h a (List.mem_cons_self a rest)
    simp [firstBadIcao, ha,
      ih (fun loc hl => h loc (List.mem_cons_of_mem a hl))]

theorem firstBadIcao_finds (v : List String) (loc : String)
    (hmem : loc ∈ v) (hbad : badIcao loc = true) :
    ∃ loc2, loc2 ∈ v ∧ badIcao loc2 = true ∧ firstBadIcao v = some loc2 := by
  induction v with
  | nil => cases hmem
  | cons a rest ih =>
    cases ha : badIcao a with
    | true => exact ⟨a, List.mem_cons_self a rest, ha, by simp [firstBadIcao, ha]⟩
    | false =>
      have hmem' : loc ∈ rest := by
        cases List.mem_cons.mp hmem with
        | inl h => rw [h] at hbad; rw [ha] at hbad; exact Bool.noConfusion hbad
        | inr h => exact h
      obtain ⟨loc2, h1, h2, h3⟩ := ih hmem'
      exact ⟨loc2, List.mem_cons_of_mem a h1, h2,
        by simp [firstBadIcao, ha, h3]⟩

theorem badIcao_eq_false_of (loc : String) (hlen : loc.length = 4)
    (halpha : loc.toList.all Char.isAlpha = true) : badIcao loc = false := by
  have hne : loc.isEmpty = false := by
    cases he : loc.isEmpty with
    | false => rfl
    | true =>
      have h0 : loc = "" := (String.isEmpty_iff loc).mp he
      rw [h0] at hlen
      simp at hlen
  simp [badIcao, pyIsAlpha, hne, hlen]
  exact fun x hx => List.all_eq_true.mp halpha x hx

theorem badIcao_of_violation (loc : String)
    (h : loc.length ≠ 4 ∨ ∃ c ∈ loc.toList, c.isAlpha = false) :
    badIcao loc = true := by
  rcases h with h | ⟨c, hc, hca⟩
  · have hb : (loc.length != 4) = true := by simp [h]
    simp [badIcao, hb]
  · have hall : loc.toList.all Char.isAlpha = false :=
      List.all_eq_false.mpr ⟨c, hc, by simp [hca]⟩
    simp [badIcao, pyIsAlpha, hall]
    exact Or.inr (Or.inr ⟨c, hc, hca⟩)

/-- C5: ICAO validation.  (i) 1–5 entries, each 4 alphabetic
characters: validation succeeds and returns the entries upper-cased in
order; (ii) an empty list fails; (iii) 6 or more entries fail;
(iv) an entry of the wrong length or with a non-alphabetic character
makes validation fail with the `Invalid ICAO code` message naming an
offending entry; (v) a validation failure makes `get_notams` return
that error for every source and fuel — no page request is consulted. -/
theorem C5_icao_validation :
    (∀ v : List String, 1 ≤ v.length → v.length ≤ 5 →
      (∀ loc ∈ v, loc.length = 4 ∧ loc.toList.all Char.isAlpha = true) →
      validateLocations v = .ok (v.map String.toUpper))
    ∧ (∀ v : List String, v.length = 0 → ∃ e, validateLocations v = .error e)
    ∧ (∀ v : List String, 6 ≤ v.length → ∃ e, validateLocations v = .error e)
    ∧ (∀ (v : List String) (loc : String), 1 ≤ v.length → v.length ≤ 5 →
        loc ∈ v → (loc.length ≠ 4 ∨ ∃ c ∈ loc.toList, c.isAlpha = false) →
        ∃ loc2, loc2 ∈ v ∧ badIcao loc2 = true
          ∧ validateLocations v = .error (icaoError loc2))
    ∧ (∀ (v : List String) (e : String), validateLocations v = .error e →
        ∀ (src : Src α ι) (fuel : Nat), get_notams v src fuel = .error e) := by
  refine ⟨?_, ?_, ?_, ?_, ?_⟩
  · intro v h1 h5 hgood
    have hnone : firstBadIcao v = none :=
      firstBadIcao_eq_none v (fun loc hl =>
        badIcao_eq_false_of loc (hgood loc hl).1 (hgood loc hl).2)
    unfold validateLocations
    rw [if_neg (by omega), if_neg (by omega), hnone]
  · intro v h0
    refine ⟨"locations: list should have at least 1 item", ?_⟩
    unfold validateLocations
    rw [if_pos (by omega)]
  · intro v h6
    refine ⟨"locations: list should have at most 5 items", ?_⟩
    unfold validateLocations
    rw [if_neg (by omega), if_pos (by omega)]
  · intro v loc h1 h5 hmem hviol
    obtain ⟨loc2, hm2, hb2, hf2⟩ :=
      firstBadIcao_finds v loc hmem (badIcao_of_violation loc hviol)
    refine ⟨loc2, hm2, hb2, ?_⟩
    unfold validateLocations
    rw [if_neg (by omega), if_neg (by omega), hf2]
  · intro v e hv src fuel
    simp [get_notams, hv]

/-- Witness for C5: two lowercase valid codes are accepted and
upper-cased; a list containing `KJ1K` (digit in third position) is
rejected with the message naming an offending code. -/
theorem C5_icao_validation_witness :
    (1 ≤ (["kjfk", "egll"] : List String).length
      ∧ (["kjfk", "egll"] : List String).length ≤ 5
      ∧ (∀ loc ∈ (["kjfk", "egll"] : List String),
          loc.length = 4 ∧ loc.toList.all Char.isAlpha = true)
      ∧ validateLocations ["kjfk", "egll"]
          = .ok (["kjfk", "egll"].map String.toUpper))
    ∧ ((("KJ1K" : String).length ≠ 4
          ∨ ∃ c ∈ ("KJ1K" : String).toList, c.isAlpha = false)
      ∧ ∃ loc2, loc2 ∈ (["KJ1K"] : List String) ∧ badIcao loc2 = true
          ∧ validateLocations ["KJ1K"] = .error (icaoError loc2)) := by
  have hviol : ("KJ1K" : String).length ≠ 4
      ∨ ∃ c ∈ ("KJ1K" : String).toList, c.isAlpha = false := by
    right
    exact ⟨'1', by decide, by decide⟩
  refine ⟨⟨by decide, by decide, by decide,
    (@C5_icao_validation Nat Nat).1 ["kjfk", "egll"] (by decide) (by decide)
      (by decide)⟩, hviol, ?_⟩
  exact (@C5_icao_validation Nat Nat).2.2.2.1 ["KJ1K"] "KJ1K" (by decide)
    (by decide) (by decide) hviol

/-! ### Ordered string-keyed dictionaries

Python dicts preserve insertion order; assignment to an existing key
keeps its position, assignment to a new key appends.  They are
modelled as association lists. -/

/-- `d.get(key)` / `d[key]` on an insertion-ordered dict. -/
def dget {β : Type} : List (String × β) → String → Option β
  | [], _ => none
  | (k, v) :: m, key => if k = key then some v else dget m key

/-- `d[key] = v` on an insertion-ordered dict: replace in place if the
key exists, append otherwise. -/
def dset {β : Type} : List (String × β) → String → β → List (String × β)
  | [], key, v => [(key, v)]
  | (k, w) :: m, key, v =>
    if k = key then (k, v) :: m else (k, w) :: dset m key v

theorem dget_dset_self {β : Type} (m : List (String × β)) (k : String) (v : β) :
    dget (dset m k v) k = some v := by
  induction m with
  | nil => simp [dget, dset]
  | cons kv m ih =>
    obtain ⟨k1, w⟩ := kv
    by_cases h : k1 = k
    · simp [dget, dset, h]
    · simp [dget, dset, h, ih]

theorem dget_dset_ne {β : Type} (m : List (String × β)) (k k2 : String) (v : β)
    (h : k ≠ k2) : dget (dset m k v) k2 = dget m k2 := by
  induction m with
  | nil => simp [dget, dset, h]
  | cons kv m ih =>
    obtain ⟨k1, w⟩ := kv
    by_cases h1 : k1 = k
    · subst h1
      simp [dget, dset, h]
    · simp [dget, dset, h1, ih]

/-! ### Affected elements and priority sorting
(`sort_elements`, lines 321–344) -/

/-- The flat element record built by the extractor (lines 376–381): the
four keys are always materialized (`type`, `identifier`, `effect` with
their defaults, `details` possibly null).  The pydantic
`AffectedElement` (lines 68–74) constructed from such a record carries
the same four fields, so one structure serves for both. -/
structure AffectedElement where
  type : String
  identifier : String
  effect : String
  details : Option String
deriving DecidableEq, Repr

/-- The `type_priority` dict of lines 323–326. -/
def typePriorityTable : List (String × Nat) :=
  [("RUNWAY", 1), ("TAXIWAY", 2), ("LIGHTING", 3), ("SERVICE", 4),
   ("PROCEDURE", 5), ("APRON", 6), ("APPROACH", 7), ("NAVAID", 8),
   ("AIRSPACE", 9), ("OTHER", 10)]

/-- The `effect_priority` dict of lines 327–330. -/
def effectPriorityTable : List (String × Nat) :=
  [("CLOSED", 1), ("RESTRICTED", 2), ("HAZARD", 3), ("UNSERVICEABLE", 4),
   ("WORK_IN_PROGRESS", 5), ("CAUTION", 6), ("AFFECTED", 7)]

/-- `type_priority.get(elem_type, 99)` (line 338). -/
def type_priority (t : String) : Nat := (dget typePriorityTable t).getD 99

/-- `effect_priority.get(effect, 99)` (line 339). -/
def effect_priority (e : String) : Nat := (dget effectPriorityTable e).getD 99

/-- `sort_key` (lines 332–341).  On the extractor's records every key
is present, so the dict defaults `"OTHER"` / `"AFFECTED"` / `""` of the
`.get` calls never apply and the key is read directly from the
fields. -/
def sort_key (e : AffectedElement) : Nat × Nat × String :=
  (type_priority e.type, effect_priority e.effect, e.identifier.toUpper)

/-- Python's tuple comparison on `sort_key` values: lexicographic on
(type rank, effect rank, upper-cased identifier). -/
def keyLE (a b : AffectedElement) : Bool :=
  decide ((sort_key a).1 < (sort_key b).1)
  || (decide ((sort_key a).1 = (sort_key b).1)
    && (decide ((sort_key a).2.1 < (sort_key b).2.1)
      || (decide ((sort_key a).2.1 = (sort_key b).2.1)
        && decide ((sort_key a).2.2 ≤ (sort_key b).2.2))))

/-- `sort_elements` (lines 321–344): Python's `sorted` is a stable
sort by `sort_key`, embedded as a stable merge sort under the total
preorder `keyLE`; the final `AffectedElement(**elem)` reconstruction
is the identity on this representation. -/
def sort_elements (elements : List AffectedElement) : List AffectedElement :=
  elements.mergeSort keyLE

theorem keyLE_iff (a b : AffectedElement) :
    keyLE a b = true ↔
      (type_priority a.type < type_priority b.type
        ∨ (type_priority a.type = type_priority b.type
          ∧ (effect_priority a.effect < effect_priority b.effect
            ∨ (effect_priority a.effect = effect_priority b.effect
              ∧ a.identifier.toUpper ≤ b.identifier.toUpper)))) := by
  simp [keyLE, sort_key]

theorem keyLE_total (a b : AffectedElement) : keyLE a b || keyLE b a := by
  simp only [Bool.or_eq_true, keyLE_iff]
  rcases Nat.lt_trichotomy (type_priority a.type) (type_priority b.type)
    with h | h | h
  · exact Or.inl (Or.inl h)
  · rcases Nat.lt_trichotomy (effect_priority a.effect)
      (effect_priority b.effect) with h2 | h2 | h2
    · exact Or.inl (Or.inr ⟨h, Or.inl h2⟩)
    · rcases le_total a.identifier.toUpper b.identifier.toUpper with h3 | h3
      · exact Or.inl (Or.inr ⟨h, Or.inr ⟨h2, h3⟩⟩)
      · exact Or.inr (Or.inr ⟨h.symm, Or.inr ⟨h2.symm, h3⟩⟩)
    · exact Or.inr (Or.inr ⟨h.symm, Or.inl h2⟩)
  · exact Or.inr (Or.inl h)

theorem keyLE_trans (a b c : AffectedElement)
    (hab : keyLE a b) (hbc : keyLE b c) : keyLE a c := by
  rw [keyLE_iff] at hab hbc ⊢
  rcases hab with h1 | ⟨h1, h1'⟩
  · rcases hbc with h2 | ⟨h2, _⟩
    · exact Or.inl (h1.trans h2)
    · exact Or.inl (h2 ▸ h1)
  · rcases hbc with h2 | ⟨h2, h2'⟩
    · exact Or.inl (h1 ▸ h2)
    · refine Or.inr ⟨h1.trans h2, ?_⟩
      rcases h1' with h3 | ⟨h3, h3'⟩
      · rcases h2' with h4 | ⟨h4, _⟩
        · exact Or.inl (h3.trans h4)
        · exact Or.inl (h4 ▸ h3)
      · rcases h2' with h4 | ⟨h4, h4'⟩
        · exact Or.inl (h3 ▸ h4)
        · exact Or.inr ⟨h3.trans h4, le_trans h3' h4'⟩

/-! ### Claim C6 -/

/-- The TAXIWAY/AFFECTED element `B` of the spec's sorting example. -/
def elemB : AffectedElement := ⟨"TAXIWAY", "B", "AFFECTED", none⟩

/-- The RUNWAY/CLOSED element `09L` of the spec's sorting example. -/
def elem09L : AffectedElement := ⟨"RUNWAY", "09L", "CLOSED", none⟩

/-- The RUNWAY/CAUTION element `09R` of the spec's sorting example. -/
def elem09R : AffectedElement := ⟨"RUNWAY", "09R", "CAUTION", none⟩

unseal List.merge List.mergeSort String.mapAux in
theorem sort_elements_example_eval :
    sort_elements [elemB, elem09L, elem09R] = [elem09L, elem09R, elemB] := by
  decide

/-- C6: `sort_elements` orders by the composite key (type rank, effect
rank, upper-cased identifier) with the fixed tables, values absent from
a table ranking 99; the output is sorted under that key, is a
permutation of the input, and the sort is stable (any key-ordered pair
that appears in order in the input appears in order in the output); the
spec's three-element example sorts to 09L, 09R, B. -/
theorem C6_sorting :
    sort_elements [elemB, elem09L, elem09R] = [elem09L, elem09R, elemB]
    ∧ (type_priority "RUNWAY" = 1 ∧ type_priority "TAXIWAY" = 2
      ∧ type_priority "LIGHTING" = 3 ∧ type_priority "SERVICE" = 4
      ∧ type_priority "PROCEDURE" = 5 ∧ type_priority "APRON" = 6
      ∧ type_priority "APPROACH" = 7 ∧ type_priority "NAVAID" = 8
      ∧ type_priority "AIRSPACE" = 9 ∧ type_priority "OTHER" = 10)
    ∧ (effect_priority "CLOSED" = 1 ∧ effect_priority "RESTRICTED" = 2
      ∧ effect_priority "HAZARD" = 3 ∧ effect_priority "UNSERVICEABLE" = 4
      ∧ effect_priority "WORK_IN_PROGRESS" = 5 ∧ effect_priority "CAUTION" = 6
      ∧ effect_priority "AFFECTED" = 7)
    ∧ (∀ t, dget typePriorityTable t = none → type_priority t = 99)
    ∧ (∀ e, dget effectPriorityTable e = none → effect_priority e = 99)
    ∧ (∀ es : List AffectedElement,
        (sort_elements es).Pairwise (fun a b => keyLE a b = true))
    ∧ (∀ es : List AffectedElement, (sort_elements es).Perm es)
    ∧ (∀ (a b : AffectedElement) (es : List AffectedElement),
        keyLE a b = true → [a, b].Sublist es →
        [a, b].Sublist (sort_elements es)) := by
  refine ⟨sort_elements_example_eval, by decide, by decide, ?_, ?_, ?_, ?_, ?_⟩
  · intro t h; simp [type_priority, h]
  · intro e h; simp [effect_priority, h]
  · intro es
    exact List.sorted_mergeSort keyLE_trans keyLE_total es
  · intro es
    exact List.mergeSort_perm es keyLE
  · intro a b es hab hsub
    exact List.pair_sublist_mergeSort keyLE_trans keyLE_total hab hsub

unseal String.mapAux in
/-- Witness for C6's hypothesis-bearing conjuncts: values outside the
tables rank 99, and the key-ordered pair (09L, 09R) of the example is
kept in order by the sort. -/
theorem C6_sorting_witness :
    (dget typePriorityTable "GATE" = none ∧ type_priority "GATE" = 99)
    ∧ (dget effectPriorityTable "WET" = none ∧ effect_priority "WET" = 99)
    ∧ keyLE elem09L elem09R = true
    ∧ [elem09L, elem09R].Sublist [elemB, elem09L, elem09R]
    ∧ [elem09L, elem09R].Sublist (sort_elements [elemB, elem09L, elem09R]) := by
  refine ⟨⟨by decide, C6_sorting.2.2.2.1 "GATE" (by decide)⟩,
    ⟨by decide, C6_sorting.2.2.2.2.1 "WET" (by decide)⟩,
    by decide, by decide, ?_⟩
  exact C6_sorting.2.2.2.2.2.2.2 elem09L elem09R [elemB, elem09L, elem09R]
    (by decide) (by decide)

/-! ### NOTAM records and the element extractor
(`get_affected_elements`, lines 346–389) -/

/-- A raw element record inside `interpretation.affected_elements`:
each key may be absent. -/
structure RawElem where
  type : Option String
  identifier : Option String
  effect : Option String
  details : Option String
deriving DecidableEq, Repr

/-- An `interpretation` sub-object: `category` and `affected_elements`
may each be absent. -/
structure Interp where
  category : Option String
  affected_elements : Option (List RawElem)
deriving DecidableEq, Repr

/-- A NOTAM record as the extractor reads it.  `interpretation = none`
models the falsy cases of line 362 (`notam.get('interpretation', {})`
followed by `if interpretation:`): key absent, null, or empty
object. -/
structure Notam where
  icao_code : Option String
  id : Option String
  interpretation : Option Interp
deriving DecidableEq, Repr

/-- The `element_info` dict of lines 376–381, with the documented
defaults for missing keys. -/
def mkElementInfo (e : RawElem) : AffectedElement :=
  ⟨e.type.getD "UNKNOWN", e.identifier.getD "N/A", e.effect.getD "N/A",
   e.details⟩

/-- The per-airport accumulator of lines 352–357. -/
structure AirportData where
  notam_count : Nat
  affected_elements : List AffectedElement
  categories : List String
  map_elements : List String
deriving DecidableEq, Repr

/-- Line 352–357: the fresh per-airport entry. -/
def initAirport : AirportData := ⟨0, [], [], []⟩

/-- Adding to the airport's category set (line 364); the set is
modelled as a duplicate-free insertion-ordered list (it is only ever
rendered sorted). -/
def addCat (cs : List String) (c : String) : List String :=
  if c ∈ cs then cs else cs ++ [c]

/-- The mutable parts of `affected_summary` that the per-NOTAM loop
updates: the per-airport dict and the global category tally. -/
structure Summary where
  airports : List (String × AirportData)
  elements_by_category : List (String × Nat)
deriving DecidableEq, Repr

/-- The body of the `for notam in notams:` loop (lines 346–382):
always count the NOTAM under its airport (default `UNKNOWN`); when an
interpretation is present, record its category (default
`UNSPECIFIED`) in the airport's set and the global tally, and append
the defaulted element records (null/absent `affected_elements` acts as
empty). -/
def processNotam (s : Summary) (n : Notam) : Summary :=
  let icao := n.icao_code.getD "UNKNOWN"
  let ad0 := (dget s.airports icao).getD initAirport
  let ad1 := { ad0 with notam_count := ad0.notam_count + 1 }
  match n.interpretation with
  | none => { s with airports := dset s.airports icao ad1 }
  | some interp =>
    let c := interp.category.getD "UNSPECIFIED"
    let ad2 := { ad1 with categories := addCat ad1.categories c }
    let tally := dset s.elements_by_category c
      ((dget s.elements_by_category c).getD 0 + 1)
    let ad3 := { ad2 with affected_elements := ad2.affected_elements
      ++ (interp.affected_elements.getD []).map mkElementInfo }
    { airports := dset s.airports icao ad3, elements_by_category := tally }

/-- The whole extraction loop over the aggregate's `notams`. -/
def processAll (notams : List Notam) : Summary :=
  notams.foldl processNotam ⟨[], []⟩

/-- The airport's NOTAM count as the summary records it (0 when the
airport has no entry yet). -/
def airportCount (s : Summary) (k : String) : Nat :=
  ((dget s.airports k).getD initAirport).notam_count

/-- The airport's category set as recorded. -/
def airportCats (s : Summary) (k : String) : List String :=
  ((dget s.airports k).getD initAirport).categories

/-- The airport's extracted element list as recorded. -/
def airportElems (s : Summary) (k : String) : List AffectedElement :=
  ((dget s.airports k).getD initAirport).affected_elements

/-- The global tally's count for a category (0 when absent). -/
def catCount (s : Summary) (c : String) : Nat :=
  (dget s.elements_by_category c).getD 0

theorem mem_addCat (cs : List String) (c : String) : c ∈ addCat cs c := by
  by_cases h : c ∈ cs <;> simp [addCat, h]

/-! ### Claim C8 -/

/-- C8: for every summary state and NOTAM, processing the NOTAM
(i) increments its airport's count unconditionally; (ii) when an
interpretation is present, puts its category (default `UNSPECIFIED`)
into the airport's category set, increments the global tally for that
category by one, and appends the defaulted element records —
null/absent `affected_elements` contributing nothing; (iii) with no
interpretation leaves elements, categories and the global tally
unchanged while the count still increments per (i); and (iv) each raw
element becomes an `AffectedElement` with defaults `UNKNOWN` /
`N/A` / `N/A` and optional details. -/
theorem C8_extractor (s : Summary) (n : Notam) :
    airportCount (processNotam s n) (n.icao_code.getD "UNKNOWN")
      = airportCount s (n.icao_code.getD "UNKNOWN") + 1
    ∧ (∀ interp, n.interpretation = some interp →
        (interp.category.getD "UNSPECIFIED")
            ∈ airportCats (processNotam s n) (n.icao_code.getD "UNKNOWN")
        ∧ catCount (processNotam s n) (interp.category.getD "UNSPECIFIED")
            = catCount s (interp.category.getD "UNSPECIFIED") + 1
        ∧ airportElems (processNotam s n) (n.icao_code.getD "UNKNOWN")
            = airportElems s (n.icao_code.getD "UNKNOWN")
              ++ (interp.affected_elements.getD []).map mkElementInfo)
    ∧ (n.interpretation = none →
        airportElems (processNotam s n) (n.icao_code.getD "UNKNOWN")
          = airportElems s (n.icao_code.getD "UNKNOWN")
        ∧ airportCats (processNotam s n) (n.icao_code.getD "UNKNOWN")
          = airportCats s (n.icao_code.getD "UNKNOWN")
        ∧ (processNotam s n).elements_by_category = s.elements_by_category)
    ∧ (∀ e, mkElementInfo e
        = ⟨e.type.getD "UNKNOWN", e.identifier.getD "N/A",
           e.effect.getD "N/A", e.details⟩) := by
  refine ⟨?_, ?_, ?_, fun e => rfl⟩
  · cases hi : n.interpretation with
    | none =>
      simp [processNotam, hi, airportCount, dget_dset_self]
    | some interp =>
      simp [processNotam, hi, airportCount, dget_dset_self]
  · intro interp hi
    refine ⟨?_, ?_, ?_⟩
    · simp [processNotam, hi, airportCats, dget_dset_self]
      exact mem_addCat _ _
    · simp [processNotam, hi, catCount, dget_dset_self]
    · simp [processNotam, hi, airportElems, dget_dset_self]
  · intro hi
    refine ⟨?_, ?_, ?_⟩
    · simp [processNotam, hi, airportElems, dget_dset_self]
    · simp [processNotam, hi, airportCats, dget_dset_self]
    · simp [processNotam, hi]

/-- Witness for C8: a NOTAM for `KJFK` with a `RUNWAY` category and
one raw element missing its `effect`, processed from the empty
summary; and a NOTAM without interpretation. -/
theorem C8_extractor_witness :
    ((⟨some "KJFK", some "A1",
        some ⟨some "RUNWAY", some [⟨some "RUNWAY", some "09L", none, none⟩]⟩⟩
        : Notam).interpretation
      = some ⟨some "RUNWAY", some [⟨some "RUNWAY", some "09L", none, none⟩]⟩)
    ∧ airportCount (processNotam ⟨[], []⟩
        ⟨some "KJFK", some "A1",
          some ⟨some "RUNWAY", some [⟨some "RUNWAY", some "09L", none, none⟩]⟩⟩)
        "KJFK"
      = airportCount ⟨[], []⟩ "KJFK" + 1
    ∧ "RUNWAY" ∈ airportCats (processNotam ⟨[], []⟩
        ⟨some "KJFK", some "A1",
          some ⟨some "RUNWAY", some [⟨some "RUNWAY", some "09L", none, none⟩]⟩⟩)
        "KJFK"
    ∧ ((⟨some "EGLL", some "B2", none⟩ : Notam).interpretation = none)
    ∧ (processNotam ⟨[], []⟩
        (⟨some "EGLL", some "B2", none⟩ : Notam)).elements_by_category
      = (⟨[], []⟩ : Summary).elements_by_category := by
  have h1 := C8_extractor ⟨[], []⟩
    ⟨some "KJFK", some "A1",
      some ⟨some "RUNWAY", some [⟨some "RUNWAY", some "09L", none, none⟩]⟩⟩
  have h2 := C8_extractor ⟨[], []⟩ (⟨some "EGLL", some "B2", none⟩ : Notam)
  exact ⟨rfl, h1.1,
    (h1.2.1 ⟨some "RUNWAY", some [⟨some "RUNWAY", some "09L", none, none⟩]⟩
      rfl).1,
    rfl, (h2.2.2.1 rfl).2.2⟩

/-! ### The summary formatter (lines 391–446) -/

/-- `format_element` (lines 312–319): the bullet line with the
identifier, an `Effect` line only when the effect differs from `N/A`,
a `Details` line only when details are present and truthy (non-empty
string). -/
def format_element (e : AffectedElement) : String :=
  let l1 := ["       • " ++ e.identifier]
  let l2 := if e.effect ≠ "N/A" then l1 ++ ["         Effect: " ++ e.effect]
            else l1
  let l3 := match e.details with
    | some d => if d.isEmpty then l2 else l2 ++ ["         Details: " ++ d]
    | none => l2
  String.intercalate "\n" l3

/-- Sorted display of a list of category names
(`sorted(...)` on strings, lines 404 and 412). -/
def strSort (l : List String) : List String :=
  l.mergeSort (fun a b => decide (a ≤ b))

/-- `sorted(dict.items())` on the category tally (line 404): keys are
distinct in a dict, so Python's tuple comparison reduces to comparing
the keys. -/
def sortPairsByKey (l : List (String × Nat)) : List (String × Nat) :=
  l.mergeSort (fun a b => decide (a.1 ≤ b.1))

/-- The grouping of already-sorted elements by their type
(lines 419–425), an insertion-ordered dict of lists. -/
def groupByType (es : List AffectedElement) : List (String × List AffectedElement) :=
  es.foldl (fun m e => dset m e.type ((dget m e.type).getD [] ++ [e])) []

/-- The canonical display order of element types (lines 428–429). -/
def type_order : List String :=
  ["RUNWAY", "TAXIWAY", "LIGHTING", "SERVICE", "PROCEDURE",
   "APRON", "APPROACH", "NAVAID", "AIRSPACE", "OTHER"]

/-- One type's block (header plus formatted elements) when present
(lines 431–435). -/
def renderTypeBlock (groups : List (String × List AffectedElement))
    (t : String) : List String :=
  match dget groups t with
  | some es => ("     " ++ t ++ ":") :: es.map format_element
  | none => []

/-- Lines 427–442: the canonical types in fixed order, then any
remaining types in first-encountered order. -/
def renderElements (groups : List (String × List AffectedElement)) :
    List String :=
  (type_order.foldl (fun acc t => acc ++ renderTypeBlock groups t) [])
  ++ groups.foldl (fun acc kv =>
      if kv.1 ∈ type_order then acc
      else acc ++ (("     " ++ kv.1 ++ ":") :: kv.2.map format_element)) []

/-- One airport's block (lines 409–444). -/
def renderAirport (kv : String × AirportData) : List String :=
  ["   AIRPORT: " ++ kv.1,
   "   NOTAMs: " ++ toString kv.2.notam_count,
   "   Categories: " ++ String.intercalate ", " (strSort kv.2.categories)]
  ++ (if kv.2.affected_elements.isEmpty then []
      else "   Affected Elements (sorted by priority):"
        :: renderElements (groupByType kv.2.affected_elements))
  ++ [""]

/-- Lines 385–389: each airport's extracted elements are replaced by
their priority-sorted version before formatting. -/
def sortAirports (s : Summary) : Summary :=
  { s with airports :=
      (s.airports.map (fun kv => (kv.1,
        { kv.2 with
          affected_elements := sort_elements kv.2.affected_elements }))) }

/-- The fixed disclaimer line (line 394). -/
def disclaimerLine : String :=
  "Remember to inform user: The following summary is for informational purposes only. Always refer to official sources for the most accurate and up-to-date information."

/-- `"=" * 50` (line 395). -/
def eqLine : String := String.mk (List.replicate 50 '=')

/-- The non-empty branch of the formatter (lines 303–446): header,
disclaimer, separator, time period, totals, airport list, category
section (alphabetical), then per-airport blocks in first-seen order. -/
def renderSummary (starts_at ends_at : String) (notams : List Notam) :
    String :=
  let s := sortAirports (processAll notams)
  let header :=
    ["NOTAM AFFECTED ELEMENTS SUMMARY", disclaimerLine, eqLine,
     "Time Period: " ++ starts_at ++ " to " ++ ends_at,
     "Total NOTAMs: " ++ toString notams.length,
     "Airports: " ++ String.intercalate ", " (s.airports.map Prod.fst), ""]
  let catSection :=
    if s.elements_by_category.isEmpty then []
    else "NOTAM Categories:"
      :: (sortPairsByKey s.elements_by_category).map
          (fun kv => "  • " ++ kv.1 ++ ": " ++ toString kv.2 ++ " NOTAMs")
      ++ [""]
  let airportSection :=
    s.airports.foldl (fun acc kv => acc ++ renderAirport kv) []
  String.intercalate "\n" (header ++ catSection ++ airportSection)

/-- The `get_affected_elements` tool after the fetch (lines 299–446):
the fixed sentence of line 301 when no NOTAMs were found (note it
interpolates only the `locations` argument, not the time period),
otherwise the full summary text. -/
def get_affected_elements_output (locations starts_at ends_at : String)
    (notams : List Notam) : String :=
  if notams.isEmpty then
    "No active NOTAMs found for " ++ locations
      ++ " in the specified time period."
  else renderSummary starts_at ends_at notams

/-- String containment, for stating what a message names. -/
def strContains (s pat : String) : Prop :=
  List.IsInfix pat.toList s.toList

instance (s pat : String) : Decidable (strContains s pat) :=
  List.decidableInfix pat.toList s.toList

/-! ### Claim C9 -/

/-- C9, counterexample.  The claim asserts the zero-NOTAM sentence
names the requested time period (start and end).  For the query of the
spec's own test vector the sentence is the fixed line of 301: it names
the location `KJFK` but contains neither the requested start
`2024-01-01T00:00:00Z` nor the requested end `2024-01-02T00:00:00Z` —
the code interpolates only `locations` and says "the specified time
period" generically. -/
theorem C9_counterexample :
    get_affected_elements_output "KJFK" "2024-01-01T00:00:00Z"
        "2024-01-02T00:00:00Z" []
      = "No active NOTAMs found for KJFK in the specified time period."
    ∧ strContains (get_affected_elements_output "KJFK"
        "2024-01-01T00:00:00Z" "2024-01-02T00:00:00Z" []) "KJFK"
    ∧ ¬ strContains (get_affected_elements_output "KJFK"
        "2024-01-01T00:00:00Z" "2024-01-02T00:00:00Z" [])
        "2024-01-01T00:00:00Z"
    ∧ ¬ strContains (get_affected_elements_output "KJFK"
        "2024-01-01T00:00:00Z" "2024-01-02T00:00:00Z" [])
        "2024-01-02T00:00:00Z" :=
  ⟨rfl, by decide, by decide, by decide⟩

/-- C9, amended: for every query whose aggregation returns zero
NOTAMs, the summarize operation returns exactly the single fixed
sentence `No active NOTAMs found for {locations} in the specified time
period.` — it names the requested locations but refers to the time
period only generically, without the start and end values, and
produces no other text. -/
theorem C9_no_notams_message (locations starts_at ends_at : String) :
    get_affected_elements_output locations starts_at ends_at []
      = "No active NOTAMs found for " ++ locations
        ++ " in the specified time period." := rfl

end Notamify
